import Mathlib

/-!
Verification of `evident` (power analysis for microbiome diversity data).

This file shallow-embeds the data model and the operations of
`evident/diversity_handler.py` (column validation, power-solver dispatch,
handler construction) together with the parts of the pipeline that the
repository references but whose defining code is not present in the
source tree (the `evident.exceptions` module, `subset_values`, the
category-threshold validator, beta-diversity subsetting); the latter are
modelled from the specification and are marked as such in their doc
comments.

Machine floats from the Python code are modelled as rationals; pandas
Series/DataFrames are modelled as association lists keyed by sample id.
-/

namespace Evident

/-- pandas dtypes that occur in the metadata columns used by the program.
`object` is the categorical (string) dtype; `int64`/`float64` are the
numeric dtypes that `_incept_power_solve_function` rejects. -/
inductive Dtype
  | object
  | int64
  | float64
deriving DecidableEq

/-- A metadata column: its pandas dtype together with its entries
(one entry per sample, rendered as strings since only equality of
category labels matters to the program). -/
structure Column where
  dtype : Dtype
  values : List String
deriving DecidableEq

/-- A pandas DataFrame, modelled as a row index (the sample ids, in
order) plus named columns whose value lists are aligned with the index. -/
structure DataFrame where
  index : List String
  cols : List (String × Column)
deriving DecidableEq

/-- `df[name]`: look up a column by name. -/
def DataFrame.getCol? (df : DataFrame) (name : String) : Option Column :=
  df.cols.lookup name

/-- `df.loc[S]` for a set of row labels `S` given as a predicate: keep
exactly the rows whose index label satisfies the predicate, filtering the
index and every column consistently. -/
def DataFrame.locFilter (df : DataFrame) (p : String → Bool) : DataFrame where
  index := df.index.filter p
  cols := df.cols.map fun nc =>
    (nc.1, { dtype := nc.2.dtype,
             values := ((df.index.zip nc.2.values).filter fun iv => p iv.1).map Prod.snd })

/-- Python exceptions raised by the code under `src/`.  The source raises
plain `ValueError`s from `_incept_power_solve_function`; `TypeError` and
`KeyError` model runtime failures of misspelled keywords and missing
columns. -/
inductive PyErr
  | valueError (msg : String)
  | typeError (msg : String)
  | keyError (key : String)
deriving DecidableEq

/-- The solver stem produced by `_incept_power_solve_function`: either a
two-sample t-test solver with its per-group observation count `nobs1`
and group-size `ratio1` pre-bound, or an ANOVA-F solver with `kGroups`
and the total observation count `nobs` pre-bound. -/
inductive PowerFunc
  | twoSampleT (nobs1 : Option ℚ) (ratio1 : ℚ)
  | anovaF (kGroups : ℕ) (nobs : Option ℚ)
deriving DecidableEq

/-- `BaseDiversityHandler._incept_power_solve_function` from
`evident/diversity_handler.py`.  Checks the dtype of the chosen column,
counts its distinct values (`unique()` is `List.dedup` here), and builds
the pre-bound solver: for exactly two choices, `total_observations` is
halved (Python true division) and bound as `nobs1` with `ratio=1.0`;
otherwise the ANOVA-F solver is bound with `k_groups` equal to the
number of choices and `nobs` equal to the unhalved `total_observations`.
(The source writes the two-sample `partial(...)` call with a missing
comma after the function name; the embedding reads it as the evident
intended call.) -/
def inceptPowerSolveFunction (metadata : DataFrame) (column : String)
    (total_observations : Option ℚ) : Except PyErr PowerFunc :=
  match metadata.getCol? column with
  | none => .error (.keyError column)
  | some c =>
    if c.dtype ≠ Dtype.object then
      .error (.valueError ("Column must be of dtype object!"))
    else
      let num_choices := c.values.dedup.length
      if num_choices = 1 then
        .error (.valueError ("Only one column value!"))
      else if num_choices = 2 then
        .ok (.twoSampleT (total_observations.map (· / 2)) 1)
      else
        .ok (.anovaF num_choices total_observations)

/-- An alpha-diversity handler: `data` is the per-sample diversity
series (sample id paired with its scalar value), `metadata` the
per-sample covariate table. -/
structure AlphaDiversityHandler where
  data : List (String × ℚ)
  metadata : DataFrame
deriving DecidableEq

/-- `AlphaDiversityHandler.__init__`: intersect the metadata sample ids
with the data sample ids and subset both tables to the common ids
(`data.loc[samps_in_common]`, `metadata.loc[samps_in_common]`).  The
construction is total: samples present in only one input are dropped
without any error. -/
def mkAlphaDiversityHandler (data : List (String × ℚ)) (metadata : DataFrame) :
    AlphaDiversityHandler where
  data := data.filter fun sv =>
    decide (sv.1 ∈ metadata.index ∧ sv.1 ∈ data.map Prod.fst)
  metadata := metadata.locFilter fun s =>
    decide (s ∈ metadata.index ∧ s ∈ data.map Prod.fst)

/-- `BaseDiversityHandler.samples`: the metadata index as a list. -/
def AlphaDiversityHandler.samples (h : AlphaDiversityHandler) : List String :=
  h.metadata.index

/-- `AlphaDiversityHandler.power_analysis` as written in the source: its
body calls `_incept_power_solve_function` (passing the misspelled
keyword `total_observation`, which at runtime would raise a `TypeError`;
the embedding charitably forwards the value) and then ends with a bare
`return`, so it produces Python `None` — it never invokes the solver
stem and never returns a solved value. -/
def alphaPowerAnalysis (h : AlphaDiversityHandler) (column : String)
    (total_observations difference alpha power : Option ℚ) :
    Except PyErr (Option ℚ) :=
  match inceptPowerSolveFunction h.metadata column total_observations with
  | .error e => .error e
  | .ok _ => .ok none

/-- The error taxonomy of the `evident.exceptions` module.  The module
itself is not present in the source tree (it is only imported and
referenced by the tests), so the constructors are modelled from the
error taxonomy of spec §7. -/
inductive EvidentError
  | wrongPowerArguments (msg : String)
  | nonCategoricalColumnError (msg : String)
  | onlyOneCategoryError (msg : String)
  | tooManyCategoriesError (msg : String)
  | insufficientSampleSizeError (msg : String)
  | noSamplesError (msg : String)
deriving DecidableEq

/-- Message for the maximum-levels rejection; names the column and both
counts. -/
def tooManyCategoriesMsg (column : String) (n maxLevels : ℕ) : String :=
  "Column " ++ column ++ " has " ++ toString n
    ++ " levels, more than the allowed maximum of " ++ toString maxLevels ++ "."

/-- Message for the minimum-count rejection; names the column and the
threshold. -/
def insufficientSampleSizeMsg (column : String) (minCount : ℕ) : String :=
  "Column " ++ column ++ " has a level with fewer than "
    ++ toString minCount ++ " samples."

/-- Modelled from the spec: the category-threshold validator is absent
from the source tree (the handlers in `diversity_handler.py` accept no
threshold parameters; `q2/_methods.py` merely forwards
`max_levels_per_category` and `min_count_per_level` to a handler
constructor not present here).  Spec §4.1: pure validation, run before
any numeric computation, that fails with `TooManyCategoriesError` when
the distinct-value count exceeds `max_levels_per_category`, fails with
the insufficient-sample-size error when any category has fewer than
`min_count_per_level` members, and otherwise returns the category
partition (here: each level with its member count). -/
def validateCategoryThresholds (column : String) (values : List String)
    (max_levels_per_category min_count_per_level : ℕ) :
    Except EvidentError (List (String × ℕ)) :=
  if max_levels_per_category < values.dedup.length then
    .error (.tooManyCategoriesError
      (tooManyCategoriesMsg column values.dedup.length max_levels_per_category))
  else if ∃ v ∈ values.dedup, values.count v < min_count_per_level then
    .error (.insufficientSampleSizeError
      (insufficientSampleSizeMsg column min_count_per_level))
  else
    .ok (values.dedup.map fun v => (v, values.count v))

/-- Modelled from the spec: `subset_values` is absent from the source
tree (only the tests call it, and `NoSamplesError` is imported from the
missing exceptions module).  Spec §4.4: return only the diversity values
for the given sample-id subset; fail with `NoSamplesError` if the
resulting subset is empty. -/
def subsetValues (h : AlphaDiversityHandler) (sample_ids : List String) :
    Except EvidentError (List (String × ℚ)) :=
  let sub := h.data.filter fun sv => decide (sv.1 ∈ sample_ids)
  if sub.isEmpty then
    .error (.noSamplesError ("No samples remain after subsetting."))
  else
    .ok sub

/-- A beta-diversity distance matrix: the sample ids in order, and the
square matrix of pairwise distances in the same order (row-major). -/
structure DistanceMatrix where
  ids : List String
  d : List (List ℚ)
deriving DecidableEq

/-- Entry `(i, j)` of a matrix, with 0 outside the bounds. -/
def entryAt (m : List (List ℚ)) (i j : ℕ) : ℚ :=
  (m.getD i []).getD j 0

/-- The matrix shape is square and aligned with the id list. -/
def DistanceMatrix.IsSquare (dm : DistanceMatrix) : Prop :=
  dm.d.length = dm.ids.length ∧ ∀ row ∈ dm.d, row.length = dm.ids.length

/-- The matrix is symmetric on its index range. -/
def SymmetricD (m : List (List ℚ)) : Prop :=
  ∀ i ∈ List.range m.length, ∀ j ∈ List.range m.length,
    entryAt m i j = entryAt m j i

instance (dm : DistanceMatrix) : Decidable dm.IsSquare := by
  unfold DistanceMatrix.IsSquare; infer_instance

instance (m : List (List ℚ)) : Decidable (SymmetricD m) := by
  unfold SymmetricD; infer_instance

/-- The positions of the samples kept by a subset request. -/
def keepIndices (dm : DistanceMatrix) (sample_ids : List String) : List ℕ :=
  (List.range dm.ids.length).filter fun i => decide (dm.ids.getD i "" ∈ sample_ids)

/-- Modelled from the spec: beta-diversity subsetting is absent from the
source tree (`BetaDiversityHandler` appears only as commented-out code
and has no `subset_values`).  Spec §3/§4.4: subsetting must filter the
row axis and the column axis by the same sample ids, producing the
sub-matrix of the kept rows and columns. -/
def subsetDistanceMatrix (dm : DistanceMatrix) (sample_ids : List String) :
    DistanceMatrix where
  ids := (keepIndices dm sample_ids).map fun i => dm.ids.getD i ""
  d := (keepIndices dm sample_ids).map fun i =>
        (keepIndices dm sample_ids).map fun j => entryAt dm.d i j

/-! Concrete fixtures (small stand-ins for the reference metadata used
by the tests: a two-group categorical column, a three-group categorical
column, an integer column, and a single-valued categorical column). -/

/-- A two-group categorical column, like `classification` (values B1/B2). -/
def classificationCol : Column := { dtype := Dtype.object, values := ["B1", "B2", "B1", "B2"] }

/-- A three-group categorical column, like `cd_behavior`. -/
def cdBehaviorCol : Column := { dtype := Dtype.object, values := ["NS", "S", "PP", "S"] }

/-- An integer-typed column, like `year_diagnosed`. -/
def yearDiagnosedCol : Column := { dtype := Dtype.int64, values := ["1994", "2017", "2017", "2001"] }

/-- An integer-typed column with a single distinct value. -/
def constantIntCol : Column := { dtype := Dtype.int64, values := ["7", "7", "7"] }

/-- A single-valued categorical column, like `env_biome`. -/
def envBiomeCol : Column := { dtype := Dtype.object, values := ["urban biome", "urban biome", "urban biome", "urban biome"] }

/-- Metadata table holding the fixture columns over four samples. -/
def refMetadata : DataFrame where
  index := ["S1", "S2", "S3", "S4"]
  cols := [("classification", classificationCol), ("cd_behavior", cdBehaviorCol),
           ("year_diagnosed", yearDiagnosedCol), ("env_biome", envBiomeCol)]

/-- Alpha-diversity values for the four fixture samples. -/
def refData : List (String × ℚ) := [("S1", 10), ("S2", 12), ("S3", 9), ("S4", 14)]

/-- The fixture handler, built by the constructor under test. -/
def refHandler : AlphaDiversityHandler := mkAlphaDiversityHandler refData refMetadata

/-- Metadata whose only column has a single distinct value under a
non-object dtype (for the check-ordering witness). -/
def constantIntMetadata : DataFrame where
  index := ["S1", "S2", "S3"]
  cols := [("constant_int", constantIntCol)]

/-- A concrete 3×3 symmetric distance matrix. -/
def dmFixture : DistanceMatrix where
  ids := ["a", "b", "c"]
  d := [[0, 1, 2], [1, 0, 3], [2, 3, 0]]

/-! Theorems. -/

/-- Claim C2: for a categorical column, a supplied `total_observations`
is halved and bound as the per-group sample size `nobs1` (with ratio 1)
of the two-sample-t solver when the column has exactly 2 distinct
values, and is passed unhalved as the total `nobs` to the ANOVA-F solver
together with `k_groups` equal to the observed number of distinct values
when the column has more than 2. -/
theorem inceptPowerSolveFunction_dispatch (metadata : DataFrame) (column : String)
    (c : Column) (t : ℚ)
    (hc : metadata.getCol? column = some c) (hobj : c.dtype = Dtype.object) :
    (c.values.dedup.length = 2 →
      inceptPowerSolveFunction metadata column (some t) =
        .ok (.twoSampleT (some (t / 2)) 1)) ∧
    (2 < c.values.dedup.length →
      inceptPowerSolveFunction metadata column (some t) =
        .ok (.anovaF c.values.dedup.length (some t))) := by
  unfold inceptPowerSolveFunction
  rw [hc]
  simp only [hobj]
  constructor
  · intro h2
    simp [h2]
  · intro h3
    have h1 : c.values.dedup.length ≠ 1 := by omega
    have h2 : c.values.dedup.length ≠ 2 := by omega
    simp [h1, h2]

/-- Witness for C2 at the fixture columns: the two-group column with
`total_observations = 40` binds `nobs1 = 20`, the three-group column
with `total_observations = 60` binds `k_groups = 3`, `nobs = 60`. -/
theorem inceptPowerSolveFunction_dispatch_witness :
    inceptPowerSolveFunction refMetadata ("classification") (some 40) =
      .ok (.twoSampleT (some (40 / 2)) 1) ∧
    inceptPowerSolveFunction refMetadata ("cd_behavior") (some 60) =
      .ok (.anovaF 3 (some 60)) :=
  ⟨(inceptPowerSolveFunction_dispatch refMetadata ("classification") classificationCol 40
      (by decide) (by decide)).1 (by decide),
   (inceptPowerSolveFunction_dispatch refMetadata ("cd_behavior") cdBehaviorCol 60
      (by decide) (by decide)).2 (by decide)⟩

/-- Claim C3, code behavior at the failing input: on the int64 column
`year_diagnosed` the code raises a plain `ValueError` whose fixed
message "Column must be of dtype object!" names neither the column nor
its dtype — not the `NonCategoricalColumnError` (naming column and
dtype) that the claim and the repository's own tests require. -/
theorem nonCategoricalColumn_code_behavior :
    inceptPowerSolveFunction refMetadata ("year_diagnosed") none =
      .error (.valueError ("Column must be of dtype object!")) := by
  rfl

/-- Claim C4, code behavior at the failing input: on the single-valued
categorical column `env_biome` the code raises a plain `ValueError`
whose fixed message "Only one column value!" names neither the column
nor its sole value — not the `OnlyOneCategoryError` (naming both) that
the claim and the repository's own tests require. -/
theorem onlyOneCategory_code_behavior :
    inceptPowerSolveFunction refMetadata ("env_biome") none =
      .error (.valueError ("Only one column value!")) := by
  rfl

/-- Claim C10: the dtype check runs before the category-count check —
for every column whose dtype is not `object`, the solver-dispatch
function fails with the non-categorical error (the code's
"Column must be of dtype object!" ValueError), whatever the number of
distinct values; the one-category error is never reached. -/
theorem dtype_check_before_category_check (metadata : DataFrame) (column : String)
    (c : Column) (t : Option ℚ)
    (hc : metadata.getCol? column = some c) (hne : c.dtype ≠ Dtype.object) :
    inceptPowerSolveFunction metadata column t =
      .error (.valueError ("Column must be of dtype object!")) := by
  unfold inceptPowerSolveFunction
  rw [hc]
  simp [hne]

/-- Witness for C10 at an int64 column that also has exactly one
distinct value: the non-categorical error is the one raised. -/
theorem dtype_check_before_category_check_witness :
    constantIntCol.values.dedup.length = 1 ∧
    inceptPowerSolveFunction constantIntMetadata ("constant_int") none =
      .error (.valueError ("Column must be of dtype object!")) :=
  ⟨by decide,
   dtype_check_before_category_check constantIntMetadata ("constant_int") constantIntCol none
     (by decide) (by decide)⟩

/-- Claim C1, code behavior at the failing inputs: `power_analysis` as
written performs no argument-count check at all.  Supplying all three of
alpha, power, total_observations (the input of the repository's own
wrong-arguments test), or supplying none of them, raises no
`WrongPowerArguments` — the call just returns Python `None` — contrary
to the claim's contract that every combination other than
exactly-one-None fails with the enumerating error message. -/
theorem power_analysis_no_argument_check :
    alphaPowerAnalysis refHandler ("classification") (some 40) none (some (1 / 20))
        (some (4 / 5)) = .ok none ∧
    alphaPowerAnalysis refHandler ("classification") none none none none = .ok none := by
  constructor <;> rfl

/-- Claim C5: after construction the handler's data and its metadata
cover exactly the same sample-id set, namely the intersection of the two
input id sets; samples present in only one input are silently dropped
(the constructor is a total function, so no error is raised for them). -/
theorem handler_sample_intersection (data : List (String × ℚ)) (metadata : DataFrame)
    (s : String) :
    (s ∈ (mkAlphaDiversityHandler data metadata).data.map Prod.fst ↔
      s ∈ data.map Prod.fst ∧ s ∈ metadata.index) ∧
    (s ∈ (mkAlphaDiversityHandler data metadata).metadata.index ↔
      s ∈ data.map Prod.fst ∧ s ∈ metadata.index) := by
  unfold mkAlphaDiversityHandler DataFrame.locFilter
  constructor
  · simp only [List.mem_map, List.mem_filter, decide_eq_true_eq]
    constructor
    · rintro ⟨⟨a, v⟩, ⟨hmem, hmd, hd⟩, rfl⟩
      exact ⟨⟨⟨a, v⟩, hmem, rfl⟩, hmd⟩
    · rintro ⟨⟨⟨a, v⟩, hmem, rfl⟩, hmd⟩
      exact ⟨⟨a, v⟩, ⟨hmem, hmd, ⟨⟨a, v⟩, hmem, rfl⟩⟩, rfl⟩
  · simp only [List.mem_filter, decide_eq_true_eq]
    tauto

/-- Claim C6, code behavior at the pinned scenario: on the two-group
column `classification` with `total_observations = 40` and
`alpha = 0.05`, `power_analysis` as written returns Python `None` (its
body never calls the solver stem and ends with a bare `return`), not the
solved power value the claim pins; at runtime the misspelled keyword
`total_observation` would in fact raise a `TypeError` before that. -/
theorem power_analysis_returns_none :
    alphaPowerAnalysis refHandler ("classification") (some 40) none (some (1 / 20)) none =
      .ok none := by
  rfl

/-- Claim C7: the threshold validator enforces both configured
thresholds before any numeric computation: when the distinct-value count
exceeds `max_levels_per_category` it fails with
`TooManyCategoriesError`, and otherwise, when any category has fewer
than `min_count_per_level` members, it fails with the
insufficient-sample-size error. -/
theorem validateCategoryThresholds_spec (column : String) (values : List String)
    (max_levels_per_category min_count_per_level : ℕ) :
    (max_levels_per_category < values.dedup.length →
      validateCategoryThresholds column values max_levels_per_category min_count_per_level =
        .error (.tooManyCategoriesError
          (tooManyCategoriesMsg column values.dedup.length max_levels_per_category))) ∧
    (values.dedup.length ≤ max_levels_per_category →
      (∃ v ∈ values.dedup, values.count v < min_count_per_level) →
      validateCategoryThresholds column values max_levels_per_category min_count_per_level =
        .error (.insufficientSampleSizeError
          (insufficientSampleSizeMsg column min_count_per_level))) := by
  unfold validateCategoryThresholds
  constructor
  · intro h
    simp [h]
  · intro h hex
    have hnot : ¬ max_levels_per_category < values.dedup.length := by omega
    rw [if_neg hnot, if_pos hex]

/-- Witness for C7: two levels against a maximum of one fail with the
too-many-categories error; a level with a single member against a
minimum of two fails with the insufficient-sample-size error. -/
theorem validateCategoryThresholds_spec_witness :
    validateCategoryThresholds ("grp") (["a", "a", "b"]) 1 3 =
      .error (.tooManyCategoriesError (tooManyCategoriesMsg ("grp") 2 1)) ∧
    validateCategoryThresholds ("grp") (["a", "b", "b"]) 5 2 =
      .error (.insufficientSampleSizeError (insufficientSampleSizeMsg ("grp") 2)) :=
  ⟨(validateCategoryThresholds_spec ("grp") (["a", "a", "b"]) 1 3).1 (by decide),
   (validateCategoryThresholds_spec ("grp") (["a", "b", "b"]) 5 2).2 (by decide) (by decide)⟩

/-- Claim C8: subsetting a handler to a sample-id set disjoint from the
handler's samples fails with `NoSamplesError` rather than returning an
empty result. -/
theorem subsetValues_disjoint_noSamplesError (h : AlphaDiversityHandler)
    (sample_ids : List String)
    (hdisj : ∀ s ∈ sample_ids, s ∉ h.data.map Prod.fst) :
    subsetValues h sample_ids =
      .error (.noSamplesError ("No samples remain after subsetting.")) := by
  unfold subsetValues
  have hempty : h.data.filter (fun sv => decide (sv.1 ∈ sample_ids)) = [] := by
    rw [List.filter_eq_nil_iff]
    intro sv hsv
    simp only [decide_eq_true_eq]
    intro hin
    exact hdisj sv.1 hin (List.mem_map.2 ⟨sv, hsv, rfl⟩)
  simp [hempty]

/-- Witness for C8: the fixture handler subset to ids it does not
contain fails with `NoSamplesError`. -/
theorem subsetValues_disjoint_noSamplesError_witness :
    subsetValues refHandler (["Z1", "Z2"]) =
      .error (.noSamplesError ("No samples remain after subsetting.")) :=
  subsetValues_disjoint_noSamplesError refHandler (["Z1", "Z2"]) (by decide)

/-- Every kept position of a subset request is a position of the
original id list. -/
theorem keepIndices_lt (dm : DistanceMatrix) (sample_ids : List String) {a : ℕ}
    (ha : a ∈ keepIndices dm sample_ids) : a < dm.ids.length := by
  unfold keepIndices at ha
  have := (List.mem_filter.1 ha).1
  simpa [List.mem_range] using this

/-- Entries of the subsetted matrix are the original entries at the kept
positions. -/
theorem entryAt_subset (dm : DistanceMatrix) (sample_ids : List String)
    {i j : ℕ} (hi : i < (keepIndices dm sample_ids).length)
    (hj : j < (keepIndices dm sample_ids).length) :
    entryAt (subsetDistanceMatrix dm sample_ids).d i j =
      entryAt dm.d ((keepIndices dm sample_ids).get ⟨i, hi⟩)
        ((keepIndices dm sample_ids).get ⟨j, hj⟩) := by
  have hi2 : i < ((keepIndices dm sample_ids).map fun a =>
      (keepIndices dm sample_ids).map fun b => entryAt dm.d a b).length := by
    simpa using hi
  have hj2 : j < ((keepIndices dm sample_ids).map fun b =>
      entryAt dm.d ((keepIndices dm sample_ids).get ⟨i, hi⟩) b).length := by
    simpa using hj
  unfold entryAt subsetDistanceMatrix
  rw [List.getD_eq_getElem _ _ hi2]
  simp only [List.getElem_map, List.get_eq_getElem]
  rw [List.getD_eq_getElem _ _ (by simpa using hj2)]
  simp only [List.getElem_map]
  rfl

/-- Claim C9: subsetting the pairwise-distance data restricts the row
axis and the column axis identically (the sub-matrix is square, with one
row and one column per kept id, and every kept id belongs both to the
original ids and to the requested subset), and the sub-matrix is
symmetric whenever the original matrix is symmetric. -/
theorem subsetDistanceMatrix_spec (dm : DistanceMatrix) (sample_ids : List String)
    (hsq : dm.IsSquare) :
    ((subsetDistanceMatrix dm sample_ids).d.length =
        (subsetDistanceMatrix dm sample_ids).ids.length ∧
      ∀ row ∈ (subsetDistanceMatrix dm sample_ids).d,
        row.length = (subsetDistanceMatrix dm sample_ids).ids.length) ∧
    (∀ s ∈ (subsetDistanceMatrix dm sample_ids).ids, s ∈ dm.ids ∧ s ∈ sample_ids) ∧
    (SymmetricD dm.d → SymmetricD (subsetDistanceMatrix dm sample_ids).d) := by
  refine ⟨⟨?_, ?_⟩, ?_, ?_⟩
  · simp [subsetDistanceMatrix]
  · intro row hrow
    simp only [subsetDistanceMatrix, List.mem_map] at hrow
    obtain ⟨a, _, rfl⟩ := hrow
    simp [subsetDistanceMatrix]
  · intro s hs
    simp only [subsetDistanceMatrix, List.mem_map] at hs
    obtain ⟨a, ha, rfl⟩ := hs
    have h1 : a < dm.ids.length := keepIndices_lt dm sample_ids ha
    have h2 : dm.ids.getD a "" ∈ sample_ids := by
      unfold keepIndices at ha
      simpa using (List.mem_filter.1 ha).2
    refine ⟨?_, h2⟩
    rw [List.getD_eq_getElem _ _ h1]
    exact List.getElem_mem h1
  · intro hsym i hi j hj
    have hlen : (subsetDistanceMatrix dm sample_ids).d.length =
        (keepIndices dm sample_ids).length := by
      simp [subsetDistanceMatrix]
    rw [List.mem_range, hlen] at hi hj
    rw [entryAt_subset dm sample_ids hi hj, entryAt_subset dm sample_ids hj hi]
    have hKi : (keepIndices dm sample_ids).get ⟨i, hi⟩ < dm.d.length := by
      rw [hsq.1]
      exact keepIndices_lt dm sample_ids (List.get_mem _ _ _)
    have hKj : (keepIndices dm sample_ids).get ⟨j, hj⟩ < dm.d.length := by
      rw [hsq.1]
      exact keepIndices_lt dm sample_ids (List.get_mem _ _ _)
    exact hsym _ (List.mem_range.2 hKi) _ (List.mem_range.2 hKj)

/-- Witness for C9: the concrete symmetric 3×3 fixture is square, and
its subset to two of its three ids is again symmetric. -/
theorem subsetDistanceMatrix_spec_witness :
    dmFixture.IsSquare ∧ SymmetricD dmFixture.d ∧
    SymmetricD (subsetDistanceMatrix dmFixture (["a", "c"])).d :=
  ⟨by decide, by decide,
   (subsetDistanceMatrix_spec dmFixture (["a", "c"]) (by decide)).2.2 (by decide)⟩

end Evident
